import Mathlib

/-!
Verification of the VacaPlan AI repository against its specification.

The repository consists of a demo React frontend (src/frontend/src/App.jsx),
a PostgreSQL schema (src/backend/db/init.sql) and a README describing the
intended backend pipeline.  The frontend and the schema are embedded directly
from the source; backend components that the repository only describes
(ConfirmationGate, RateBudget enforcement, BookingCoordinator, audit append)
are modelled from the spec, as marked on each such definition.
-/

namespace VacaPlan

/-! ### Frontend data model (src/frontend/src/App.jsx, lines 3-31) -/

/-- One entry of the AGENT_STEPS constant in App.jsx. -/
structure AgentStep where
  id : String
  icon : String
  label : String
  detail : String
  deriving DecidableEq

/-- AGENT_STEPS from App.jsx lines 3-11. -/
def AGENT_STEPS : List AgentStep := [
  { id := "calendar", icon := "📅", label := "Checking your calendar", detail := "Scanning availability in June–July..." },
  { id := "prefs", icon := "🧠", label := "Loading preferences", detail := "Beach lover · Budget: $3,000 · Cuisine: Asian" },
  { id := "flights", icon := "✈️", label := "Searching flights", detail := "BKK, DPS, SGN — 14 routes found" },
  { id := "hotels", icon := "🏨", label := "Finding hotels", detail := "Filtering 4–5 star, ocean view, pet-friendly" },
  { id := "activities", icon := "🎯", label := "Curating activities", detail := "Temples, scuba, night markets, cooking class" },
  { id := "budget", icon := "💰", label := "Optimizing budget", detail := "Total estimate: $2,740 · Savings: $260" },
  { id := "plan", icon := "🗺️", label := "Finalizing itinerary", detail := "7-day Bali trip ready!" }]

/-- One entry of the ITINERARY constant in App.jsx. -/
structure ItineraryDay where
  day : Nat
  title : String
  activities : List String
  cost : String
  deriving DecidableEq

/-- ITINERARY from App.jsx lines 13-21. -/
def ITINERARY : List ItineraryDay := [
  { day := 1, title := "Arrival & Seminyak", activities := ["Land at Ngurah Rai Airport", "Check-in: The Layar Villas", "Sunset at Ku De Ta beach bar"], cost := "$320" },
  { day := 2, title := "Ubud & Rice Terraces", activities := ["Tegallalang Rice Terraces sunrise", "Tirta Empul holy spring temple", "Traditional Balinese cooking class"], cost := "$85" },
  { day := 3, title := "Scuba & Nusa Lembongan", activities := ["Ferry to Nusa Lembongan", "Crystal Bay scuba diving (2 dives)", "Devil's Tears sunset cliffs"], cost := "$120" },
  { day := 4, title := "Cultural Immersion", activities := ["Tanah Lot sea temple", "Kecak fire dance at Uluwatu", "Jimbaran seafood BBQ dinner"], cost := "$95" },
  { day := 5, title := "Adventure Day", activities := ["Mount Batur volcano sunrise trek", "Kintamani coffee plantation tour", "Spa & massage afternoon"], cost := "$110" },
  { day := 6, title := "Beach & Market Day", activities := ["Canggu surf lesson", "Seminyak boutique shopping", "Potato Head Beach Club evening"], cost := "$140" },
  { day := 7, title := "Departure", activities := ["Spa morning ritual", "Last beachside breakfast", "Transfer to airport"], cost := "$60" }]

/-- One entry of the FLIGHTS constant in App.jsx. -/
structure Flight where
  fromCity : String
  toCity : String
  airline : String
  time : String
  price : String
  badge : Option String
  deriving DecidableEq

/-- FLIGHTS from App.jsx lines 23-26. -/
def FLIGHTS : List Flight := [
  { fromCity := "Jakarta (CGK)", toCity := "Bali (DPS)", airline := "Garuda Indonesia", time := "06:30 → 08:45", price := "$89", badge := some "Best Value" },
  { fromCity := "Bali (DPS)", toCity := "Jakarta (CGK)", airline := "Lion Air", time := "18:00 → 20:15", price := "$74", badge := none }]

/-- One entry of the HOTELS constant in App.jsx. -/
structure Hotel where
  name : String
  location : String
  stars : Nat
  price : String
  features : List String
  deriving DecidableEq

/-- HOTELS from App.jsx lines 28-31. -/
def HOTELS : List Hotel := [
  { name := "The Layar Private Villas", location := "Seminyak", stars := 5, price := "$240/night", features := ["Private pool", "Ocean view", "Breakfast incl."] },
  { name := "Alaya Resort Ubud", location := "Ubud", stars := 4, price := "$160/night", features := ["Rice field view", "Spa", "Yoga deck"] }]

/-! ### JS string/number semantics used by totalCost (App.jsx line 63) -/

/-- Removes the first occurrence of a dollar sign from a character list;
models the JS call cost.replace with pattern and empty replacement,
which with a string pattern replaces only the first occurrence. -/
def removeFirstDollar : List Char → List Char
  | [] => []
  | c :: cs => if c = '$' then cs else c :: removeFirstDollar cs

/-- JS-style replace of the first dollar sign in a string. -/
def jsReplaceDollar (s : String) : String := String.mk (removeFirstDollar s.data)

/-- JS parseInt on a decimal string: reads the leading run of digits and
returns none (NaN) when the string does not start with a digit.  The inputs
produced by the App.jsx data all start with a digit after the dollar sign is
removed, so sign and whitespace handling of full JS parseInt is not needed. -/
def jsParseInt (s : String) : Option Nat :=
  let ds := s.data.takeWhile Char.isDigit
  if ds.isEmpty then none
  else some (ds.foldl (fun a c => a * 10 + (c.toNat - 48)) 0)

/-- totalCost from App.jsx line 63:
ITINERARY.reduce of parseInt applied to each day cost with the dollar sign
removed.  A NaN (none) result propagates through the sum as in JS. -/
def totalCost : Option Nat :=
  ITINERARY.foldl
    (fun acc d =>
      match acc, jsParseInt (jsReplaceDollar d.cost) with
      | some a, some b => some (a + b)
      | _, _ => none)
    (some 0)

/-- The amount shown in the confirm-booking modal (App.jsx line 263):
the literal expression totalCost + 163. -/
def chargeTotal : Option Nat := totalCost.map (fun c => c + 163)

/-- Sum of the parsed flight prices shown in the flights panel.  The code
does not compute this value; it is defined here to relate the literal 163 in
the confirm modal to the two flight prices listed in FLIGHTS. -/
def flightPriceSum : Option Nat :=
  FLIGHTS.foldl
    (fun acc f =>
      match acc, jsParseInt (jsReplaceDollar f.price) with
      | some a, some b => some (a + b)
      | _, _ => none)
    (some 0)

/-! ### Frontend state machine (src/frontend/src/App.jsx, VacaPlanAI component) -/

/-- The prefs state of the component (App.jsx line 37). -/
structure Prefs where
  destination : String
  dates : String
  budget : String
  travelers : String
  style : String
  deriving DecidableEq

/-- The payInfo state of the component (App.jsx line 41). -/
structure PayInfo where
  name : String
  card : String
  expiry : String
  deriving DecidableEq

/-- The screen state of the component: home, preferences, planning or result
(App.jsx line 34). -/
inductive Screen
  | home
  | preferences
  | planning
  | result
  deriving DecidableEq

/-- The full useState state of the VacaPlanAI component (App.jsx lines 34-41). -/
structure AppState where
  screen : Screen
  stepIndex : Nat
  completedSteps : List String
  prefs : Prefs
  activeDay : Nat
  bookingMode : Bool
  booked : Bool
  payInfo : PayInfo
  deriving DecidableEq

/-- Initial prefs value (App.jsx line 37). -/
def initPrefs : Prefs :=
  ⟨"Bali, Indonesia", "Jun 14 – Jun 21, 2025", "$3,000", "2 adults", "Beach & Culture"⟩

/-- Initial payInfo value (App.jsx line 41). -/
def initPayInfo : PayInfo := ⟨"Sarah Chen", "•••• •••• •••• 4242", "12/27"⟩

/-- Initial component state (App.jsx lines 34-41). -/
def initState : AppState := ⟨.home, 0, [], initPrefs, 0, false, false, initPayInfo⟩

/-- The ids of the seven agent steps in their declared order. -/
def stepIds : List String := AGENT_STEPS.map (fun st => st.id)

/-- One firing of the planning-screen timer effect (App.jsx lines 44-55):
while on the planning screen, if all steps are done the screen advances to
the result screen, otherwise the current step id is appended to
completedSteps and stepIndex is incremented. -/
def planningTick (s : AppState) : AppState :=
  if s.screen = .planning then
    if s.stepIndex < AGENT_STEPS.length then
      { s with completedSteps := s.completedSteps ++ [stepIds.getD s.stepIndex ""],
               stepIndex := s.stepIndex + 1 }
    else { s with screen := .result }
  else s

/-- The user interactions and timer events of the component.  Each
constructor corresponds to one onClick/onChange handler or to the timer of
the planning effect; handlers carry the user-chosen payload. -/
inductive Action
  | goHome
  | goPreferences
  | startPlanning
  | tick
  | setPrefs (p : Prefs)
  | setStyle (v : String)
  | setPayInfo (q : PayInfo)
  | setActiveDay (i : Nat)
  | openBooking
  | confirmBook
  | cancelBooking
  | editPreferences
  | startOver
  deriving DecidableEq

/-- Effect of one event on the component state.  Each handler is guarded by
the screen (and flags) under which its button or input is rendered in
App.jsx; an event whose control is not rendered leaves the state unchanged. -/
def applyAction (a : Action) (s : AppState) : AppState :=
  match a with
  | .goHome =>
      if s.screen = .preferences then { s with screen := .home } else s
  | .goPreferences =>
      if s.screen = .home then { s with screen := .preferences } else s
  | .startPlanning =>
      if s.screen = .preferences then
        { s with completedSteps := [], stepIndex := 0, screen := .planning }
      else s
  | .tick => planningTick s
  | .setPrefs p =>
      if s.screen = .preferences then { s with prefs := p } else s
  | .setStyle v =>
      if s.screen = .preferences then
        { s with prefs := { s.prefs with style := v } }
      else s
  | .setPayInfo q =>
      if s.screen = .preferences then { s with payInfo := q } else s
  | .setActiveDay i =>
      if s.screen = .result ∧ i < ITINERARY.length then { s with activeDay := i } else s
  | .openBooking =>
      if s.screen = .result ∧ s.booked = false then { s with bookingMode := true } else s
  | .confirmBook =>
      if s.screen = .result ∧ s.bookingMode = true ∧ s.booked = false then
        { s with booked := true, bookingMode := false }
      else s
  | .cancelBooking =>
      if s.screen = .result ∧ s.bookingMode = true ∧ s.booked = false then
        { s with bookingMode := false }
      else s
  | .editPreferences =>
      if s.screen = .result then { s with screen := .preferences, booked := false } else s
  | .startOver =>
      if s.screen = .result then { s with screen := .home, booked := false } else s

/-- Running a sequence of events from a state. -/
def run (s : AppState) (l : List Action) : AppState :=
  l.foldl (fun t a => applyAction a t) s

/-! ### ConfirmationGate (modelled from the spec) -/

/-- Modelled from the spec: the result type of ConfirmationGate.verify
(section 4.3); the backend implementing the gate is not present in src/,
only the README describes it (single-use HMAC tokens with 10-minute TTL). -/
inductive VerifyResult
  | Valid
  | Expired
  | AlreadyUsed
  | Mismatch
  deriving DecidableEq

/-- Modelled from the spec: a ConfirmationToken binds session id, an intent
hash, the issuance time and a signature over those fields. -/
structure ConfirmationToken where
  tokenId : Nat
  sessionId : Nat
  intentHash : Nat
  issuedAt : Nat
  sig : Nat
  deriving DecidableEq

/-- Modelled from the spec: gate state is a server-held secret plus the
used-token set keyed by token id. -/
structure GateState where
  secret : Nat
  usedTokens : List Nat
  deriving DecidableEq

/-- Token TTL fixed at 10 minutes (in seconds) from issuance. -/
def tokenTTL : Nat := 600

/-- Modelled from the spec: the HMAC signature over the token fields using
the server-held secret; a concrete mixing function standing in for HMAC. -/
def tokenSig (secret sid hash iat id : Nat) : Nat :=
  (secret * 1000003 + sid * 10007 + hash * 101 + iat * 13 + id * 7) % 4294967296

/-- Modelled from the spec: ConfirmationGate.verify (section 4.3).
Expiry is checked first (Expired regardless of signature validity), then
the used-token set (AlreadyUsed even within TTL), then signature and intent
hash (Mismatch); a successful verification marks the token id consumed. -/
def verify (g : GateState) (tok : ConfirmationToken) (presentedHash now : Nat) :
    VerifyResult × GateState :=
  if tokenTTL < now - tok.issuedAt then (.Expired, g)
  else if tok.tokenId ∈ g.usedTokens then (.AlreadyUsed, g)
  else if tok.sig ≠ tokenSig g.secret tok.sessionId tok.intentHash tok.issuedAt tok.tokenId
          ∨ presentedHash ≠ tok.intentHash then (.Mismatch, g)
  else (.Valid, ⟨g.secret, tok.tokenId :: g.usedTokens⟩)

/-- Gate state after a sequence of verification requests
(token, presented hash, presentation time). -/
def runGate (g : GateState) (reqs : List (ConfirmationToken × Nat × Nat)) : GateState :=
  reqs.foldl (fun h r => (verify h r.1 r.2.1 r.2.2).2) g

/-- Session status values from the spec data model (section 3). -/
inductive SessionStatus
  | active
  | awaiting_confirmation
  | completed
  | failed
  | expired
  deriving DecidableEq

/-- Modelled from the spec: the submit-confirmation entry point (section 6).
Returns the verification outcome, the new gate state, the session status
after the outcome is applied, and whether booking was triggered.  On
Expired the session transitions to expired and no booking is attempted; on
AlreadyUsed or Mismatch the session stays awaiting confirmation; only Valid
triggers the booking. -/
def submitConfirmation (g : GateState) (tok : ConfirmationToken) (presentedHash now : Nat) :
    VerifyResult × GateState × SessionStatus × Bool :=
  match verify g tok presentedHash now with
  | (.Valid, h) => (.Valid, h, .active, true)
  | (.Expired, h) => (.Expired, h, .expired, false)
  | (.AlreadyUsed, h) => (.AlreadyUsed, h, .awaiting_confirmation, false)
  | (.Mismatch, h) => (.Mismatch, h, .awaiting_confirmation, false)

/-! ### RateBudget / engine ceilings (modelled from the spec) -/

/-- Terminal error kinds of the pipeline relevant to the claims (spec
section 7). -/
inductive EngineError
  | BudgetExceeded
  | BookingFailed (step : Nat)
  | BookingPartiallyFailed
  deriving DecidableEq

/-- Modelled from the spec: per-session counters tracked by RateBudget,
the session terminal error if any, and the log of provider contacts made. -/
structure EngineState where
  toolCalls : Nat
  costUnits : Nat
  failure : Option EngineError
  providerCalls : List Nat
  deriving DecidableEq

/-- Configured ceilings MaxToolCalls and MaxCostUnits. -/
structure BudgetConfig where
  maxToolCalls : Nat
  maxCostUnits : Nat
  deriving DecidableEq

/-- Default ceilings: 50 tool calls and a 100K token-equivalent cost budget
(README Risk 4 mitigation; spec section 4.1). -/
def defaultBudget : BudgetConfig := ⟨50, 100000⟩

/-- Modelled from the spec: one tool invocation through the engine (spec
sections 4.1 and 4.2).  The two ceilings are checked before invoking: if
either would be exceeded the call is blocked, no provider is contacted and
the session fails with BudgetExceeded; a session that already failed
performs no further calls; otherwise the counters are incremented and the
provider call is recorded. -/
def invokeTool (cfg : BudgetConfig) (st : EngineState) (callId cost : Nat) : EngineState :=
  if st.failure.isSome then st
  else if cfg.maxToolCalls < st.toolCalls + 1 ∨ cfg.maxCostUnits < st.costUnits + cost then
    { st with failure := some .BudgetExceeded }
  else
    { st with toolCalls := st.toolCalls + 1,
              costUnits := st.costUnits + cost,
              providerCalls := st.providerCalls ++ [callId] }

/-- Engine state after a sequence of tool-call requests (call id, cost). -/
def runEngine (cfg : BudgetConfig) (st : EngineState) (reqs : List (Nat × Nat)) : EngineState :=
  reqs.foldl (fun t r => invokeTool cfg t r.1 r.2) st

/-! ### BookingCoordinator (modelled from the spec) -/

/-- BookingTransaction status values from the spec data model (section 3). -/
inductive TxStatus
  | pending
  | committed
  | rolled_back
  | partially_failed
  deriving DecidableEq

/-- Modelled from the spec: the outcome of BookingCoordinator.execute —
the completed reservation records (reservation number and amount, in
booking order), the compensation calls in invocation order with each
outcome, the overall status, the committed total and the failing step. -/
structure BookingTransaction where
  completed : List (Nat × Nat)
  compCalls : List (Nat × Bool)
  status : TxStatus
  totalCharged : Nat
  failedStep : Option Nat
  deriving DecidableEq

/-- Modelled from the spec: attempts the reservations of an intent in
order, numbering them from i; resOk gives each reservation call's outcome.
Returns the successful (number, amount) records and the number of the first
failing reservation, if any. -/
def attemptAll (resOk : Nat → Bool) : Nat → List Nat → List (Nat × Nat) × Option Nat
  | _, [] => ([], none)
  | i, p :: ps =>
      if resOk i then
        let r := attemptAll resOk (i + 1) ps
        ((i, p) :: r.1, r.2)
      else ([], some i)

/-- Modelled from the spec: BookingCoordinator.execute (section 4.4) over an
intent given as the list of reservation amounts, reservations numbered from
1 in dependency order.  On full success the status is committed and the
total equals the sum of the amounts.  On failure of reservation k the
already-made reservations are compensated in reverse (LIFO) order, each
outcome recorded; status is rolled_back if every compensation succeeded and
partially_failed otherwise (the spec leaves the charged amount of a
partially failed transaction to manual reconciliation; it is recorded as 0
here and no claim depends on it). -/
def execute (resOk compOk : Nat → Bool) (intent : List Nat) : BookingTransaction :=
  match attemptAll resOk 1 intent with
  | (done, none) =>
      ⟨done, [], .committed, (done.map (fun q => q.2)).sum, none⟩
  | (done, some k) =>
      let comps := (done.map (fun q => q.1)).reverse.map (fun j => (j, compOk j))
      ⟨done, comps,
        if comps.all (fun c => c.2) then .rolled_back else .partially_failed,
        0, some k⟩

/-- Modelled from the spec: how GraphEngine resolves the session from the
booking outcome (sections 4.4 and 7): committed completes the session; a
rolled back transaction fails the session with BookingFailed at the failing
step; partially failed fails it with BookingPartiallyFailed. -/
def sessionAfterBooking (tx : BookingTransaction) : SessionStatus × Option EngineError :=
  match tx.status with
  | .committed => (.completed, none)
  | .rolled_back => (.failed, tx.failedStep.map (fun k => .BookingFailed k))
  | .partially_failed => (.failed, some .BookingPartiallyFailed)
  | .pending => (.active, none)

/-! ### Database schema (src/backend/db/init.sql) -/

/-- A row of the bookings table (init.sql lines 3-10). -/
structure BookingRow where
  session_id : String
  confirmation_id : String
  amount_usd : Int
  status : String
  created_at : Nat
  deriving DecidableEq

/-- The schema default for the status column (init.sql line 8). -/
def bookingStatusDefault : String := "confirmed"

/-- A bookings row inserted without an explicit status takes the schema
default. -/
def insertBookingDefault (sid cid : String) (amt : Int) (t : Nat) : BookingRow :=
  ⟨sid, cid, amt, bookingStatusDefault, t⟩

/-- The constraints the bookings schema places on a row's variable-length
columns: confirmation_id and status are VARCHAR(20).  The schema declares no
CHECK constraint on status. -/
def bookingRowAllowed (r : BookingRow) : Bool :=
  r.confirmation_id.length ≤ 20 && r.status.length ≤ 20

/-- The overall status set named by the spec for BookingTransaction
(section 3). -/
def specStatusSet : List String :=
  ["pending", "committed", "rolled_back", "partially_failed"]

/-- A row of the booking_audit_log table (init.sql lines 12-18). -/
structure AuditEvent where
  session_id : String
  event : String
  details : String
  created_at : Nat
  deriving DecidableEq

/-- The audit log as persisted state. -/
structure AuditLog where
  events : List AuditEvent
  deriving DecidableEq

/-- Modelled from the spec: appendAudit of the persistence interface
(section 6) over the booking_audit_log table — append-only. -/
def appendAudit (log : AuditLog) (e : AuditEvent) : AuditLog :=
  ⟨log.events ++ [e]⟩

/-! ### Gate lemmas -/

lemma verify_usedTokens_mono (g : GateState) (tok : ConfirmationToken) (ph now x : Nat)
    (hx : x ∈ g.usedTokens) : x ∈ (verify g tok ph now).2.usedTokens := by
  unfold verify
  split
  · exact hx
  · split
    · exact hx
    · split
      · exact hx
      · exact List.mem_cons_of_mem _ hx

lemma runGate_usedTokens_mono :
    ∀ (reqs : List (ConfirmationToken × Nat × Nat)) (g : GateState) (x : Nat),
      x ∈ g.usedTokens → x ∈ (runGate g reqs).usedTokens := by
  intro reqs
  induction reqs with
  | nil => intro g x hx; exact hx
  | cons r rs ih =>
      intro g x hx
      simp only [runGate, List.foldl_cons]
      exact ih _ x (verify_usedTokens_mono _ _ _ _ _ hx)

lemma verify_valid_marks_used (g : GateState) (tok : ConfirmationToken) (ph now : Nat)
    (hv : (verify g tok ph now).1 = .Valid) :
    tok.tokenId ∈ (verify g tok ph now).2.usedTokens := by
  unfold verify at hv ⊢
  split at hv
  · simp at hv
  · rename_i hc1
    split at hv
    · simp at hv
    · rename_i hc2
      split at hv
      · simp at hv
      · rename_i hc3
        rw [if_neg hc1, if_neg hc2, if_neg hc3]
        exact List.mem_cons_self _ _

lemma verify_used_ne_valid (g : GateState) (tok : ConfirmationToken) (ph now : Nat)
    (hm : tok.tokenId ∈ g.usedTokens) : (verify g tok ph now).1 ≠ .Valid := by
  unfold verify
  by_cases hts : tokenTTL < now - tok.issuedAt
  · rw [if_pos hts]
    simp
  · rw [if_neg hts, if_pos hm]
    simp

lemma verify_used_within_ttl (g : GateState) (tok : ConfirmationToken) (ph now : Nat)
    (hm : tok.tokenId ∈ g.usedTokens) (hts : now - tok.issuedAt ≤ tokenTTL) :
    (verify g tok ph now).1 = .AlreadyUsed := by
  unfold verify
  rw [if_neg (by omega), if_pos hm]

/-! ### Claim C1 -/

/-- C1: successful verification happens at most once per token id: once a
verification returns Valid for a token id, any later verification of a
token with the same id (after any further requests) never returns Valid,
and within the TTL it returns AlreadyUsed.  In the demo UI, once booked is
set, the confirm and book-everything handlers are no-ops. -/
theorem confirmation_token_single_use :
    (∀ (g : GateState) (tok : ConfirmationToken) (ph now : Nat)
        (reqs : List (ConfirmationToken × Nat × Nat)) (tok2 : ConfirmationToken) (ph2 now2 : Nat),
        (verify g tok ph now).1 = .Valid → tok2.tokenId = tok.tokenId →
        (verify (runGate (verify g tok ph now).2 reqs) tok2 ph2 now2).1 ≠ .Valid ∧
          (now2 - tok2.issuedAt ≤ tokenTTL →
            (verify (runGate (verify g tok ph now).2 reqs) tok2 ph2 now2).1 = .AlreadyUsed)) ∧
    (∀ s : AppState, s.booked = true →
        applyAction .confirmBook s = s ∧ applyAction .openBooking s = s) := by
  constructor
  · intro g tok ph now reqs tok2 ph2 now2 hv hid
    have hmem : tok.tokenId ∈ (verify g tok ph now).2.usedTokens :=
      verify_valid_marks_used _ _ _ _ hv
    have hmem2 : tok2.tokenId ∈ (runGate (verify g tok ph now).2 reqs).usedTokens := by
      rw [hid]
      exact runGate_usedTokens_mono _ _ _ hmem
    exact ⟨verify_used_ne_valid _ _ _ _ hmem2,
      fun hts => verify_used_within_ttl _ _ _ _ hmem2 hts⟩
  · intro s hb
    constructor <;> simp [applyAction, hb]

/-- Concrete gate state for the C1 witness. -/
def gateW : GateState := ⟨0, []⟩

/-- Concrete token for the C1 witness, correctly signed for gateW. -/
def tokW : ConfirmationToken := ⟨1, 2, 5, 0, tokenSig 0 2 5 0 1⟩

theorem confirmation_token_single_use_witness :
    (verify (runGate (verify gateW tokW 5 0).2 []) tokW 5 1).1 = .AlreadyUsed :=
  (confirmation_token_single_use.1 gateW tokW 5 0 [] tokW 5 1 (by decide) rfl).2 (by decide)

/-! ### Claim C4 -/

/-- C4: a token presented strictly more than the 10-minute TTL after
issuance verifies as Expired regardless of its signature value, the session
transitions to expired, and booking is not triggered. -/
theorem expired_token_rejected :
    ∀ (g : GateState) (id sid hash iat sig ph now : Nat),
      iat + tokenTTL < now →
      verify g ⟨id, sid, hash, iat, sig⟩ ph now = (.Expired, g) ∧
      (submitConfirmation g ⟨id, sid, hash, iat, sig⟩ ph now).2.2.1 = .expired ∧
      (submitConfirmation g ⟨id, sid, hash, iat, sig⟩ ph now).2.2.2 = false := by
  intro g id sid hash iat sig ph now hlate
  have hv : verify g ⟨id, sid, hash, iat, sig⟩ ph now = (.Expired, g) := by
    unfold verify
    rw [if_pos]
    show tokenTTL < now - iat
    omega
  refine ⟨hv, ?_, ?_⟩ <;> simp [submitConfirmation, hv]

theorem expired_token_rejected_witness :
    verify ⟨7, []⟩ ⟨1, 2, 3, 0, 4⟩ 3 601 = (.Expired, ⟨7, []⟩) :=
  (expired_token_rejected ⟨7, []⟩ 1 2 3 0 4 3 601 (by decide)).1

/-! ### Engine budget lemmas -/

lemma invokeTool_toolCalls_le (cfg : BudgetConfig) (st : EngineState) (callId cost : Nat) :
    st.toolCalls ≤ (invokeTool cfg st callId cost).toolCalls := by
  obtain ⟨tc, cu, f, pc⟩ := st
  unfold invokeTool
  split
  · exact le_refl _
  · split
    · exact le_refl _
    · simp

lemma invokeTool_costUnits_le (cfg : BudgetConfig) (st : EngineState) (callId cost : Nat) :
    st.costUnits ≤ (invokeTool cfg st callId cost).costUnits := by
  obtain ⟨tc, cu, f, pc⟩ := st
  unfold invokeTool
  split
  · exact le_refl _
  · split
    · exact le_refl _
    · simp

lemma runEngine_toolCalls_le (cfg : BudgetConfig) :
    ∀ (reqs : List (Nat × Nat)) (st : EngineState),
      st.toolCalls ≤ (runEngine cfg st reqs).toolCalls := by
  intro reqs
  induction reqs with
  | nil => intro st; exact le_refl _
  | cons r rs ih =>
      intro st
      simp only [runEngine, List.foldl_cons]
      exact le_trans (invokeTool_toolCalls_le cfg st r.1 r.2) (ih _)

lemma runEngine_costUnits_le (cfg : BudgetConfig) :
    ∀ (reqs : List (Nat × Nat)) (st : EngineState),
      st.costUnits ≤ (runEngine cfg st reqs).costUnits := by
  intro reqs
  induction reqs with
  | nil => intro st; exact le_refl _
  | cons r rs ih =>
      intro st
      simp only [runEngine, List.foldl_cons]
      exact le_trans (invokeTool_costUnits_le cfg st r.1 r.2) (ih _)

lemma invokeTool_of_failed (cfg : BudgetConfig) (st : EngineState) (callId cost : Nat)
    (e : EngineError) (h : st.failure = some e) : invokeTool cfg st callId cost = st := by
  unfold invokeTool
  simp [h]

lemma runEngine_of_failed (cfg : BudgetConfig) :
    ∀ (reqs : List (Nat × Nat)) (st : EngineState) (e : EngineError),
      st.failure = some e → runEngine cfg st reqs = st := by
  intro reqs
  induction reqs with
  | nil => intro st e _; rfl
  | cons r rs ih =>
      intro st e h
      simp only [runEngine, List.foldl_cons]
      rw [invokeTool_of_failed cfg st r.1 r.2 e h]
      exact ih st e h

/-! ### Claim C3 -/

/-- C3: the per-session counters are non-decreasing under every tool
invocation (single step and along any request trace); starting within the
ceilings they never exceed them; when a call would exceed either ceiling it
is blocked before contacting any provider and the session fails with
BudgetExceeded; and a session that failed with BudgetExceeded performs no
further calls. -/
theorem budget_ceilings :
    ∀ (cfg : BudgetConfig) (st : EngineState) (callId cost : Nat) (reqs : List (Nat × Nat)),
      st.toolCalls ≤ (invokeTool cfg st callId cost).toolCalls ∧
      st.costUnits ≤ (invokeTool cfg st callId cost).costUnits ∧
      st.toolCalls ≤ (runEngine cfg st reqs).toolCalls ∧
      st.costUnits ≤ (runEngine cfg st reqs).costUnits ∧
      (st.failure = none → st.toolCalls ≤ cfg.maxToolCalls → st.costUnits ≤ cfg.maxCostUnits →
        (invokeTool cfg st callId cost).toolCalls ≤ cfg.maxToolCalls ∧
        (invokeTool cfg st callId cost).costUnits ≤ cfg.maxCostUnits) ∧
      (st.failure = none →
        (cfg.maxToolCalls < st.toolCalls + 1 ∨ cfg.maxCostUnits < st.costUnits + cost) →
        (invokeTool cfg st callId cost).failure = some .BudgetExceeded ∧
        (invokeTool cfg st callId cost).providerCalls = st.providerCalls) ∧
      (st.failure = some .BudgetExceeded → runEngine cfg st reqs = st) := by
  intro cfg st callId cost reqs
  refine ⟨invokeTool_toolCalls_le cfg st callId cost,
    invokeTool_costUnits_le cfg st callId cost,
    runEngine_toolCalls_le cfg reqs st,
    runEngine_costUnits_le cfg reqs st, ?_, ?_,
    fun hf => runEngine_of_failed cfg reqs st _ hf⟩
  · intro hnone h1 h2
    obtain ⟨tc, cu, f, pc⟩ := st
    simp only at hnone h1 h2
    subst hnone
    unfold invokeTool
    simp only [Option.isSome_none, Bool.false_eq_true, if_false]
    split
    · exact ⟨h1, h2⟩
    · rename_i hcond
      constructor <;> simp <;> omega
  · intro hnone hover
    obtain ⟨tc, cu, f, pc⟩ := st
    simp only at hnone hover
    subst hnone
    unfold invokeTool
    simp only [Option.isSome_none, Bool.false_eq_true, if_false]
    rw [if_pos hover]
    exact ⟨rfl, rfl⟩

/-- Engine state at the cap for the C3 witness (scenario D: 50 tool calls
already made, cap 50, so the 51st call is blocked). -/
def engineAtCap : EngineState := ⟨50, 10, none, []⟩

theorem budget_ceilings_witness :
    (invokeTool defaultBudget engineAtCap 7 1).failure = some .BudgetExceeded ∧
    (invokeTool defaultBudget engineAtCap 7 1).providerCalls = engineAtCap.providerCalls :=
  (budget_ceilings defaultBudget engineAtCap 7 1 []).2.2.2.2.2.1 rfl (Or.inl (by decide))

/-! ### Coordinator lemmas -/

lemma attemptAll_allOk (resOk : Nat → Bool) :
    ∀ (ps : List Nat) (i : Nat),
      (∀ j, i ≤ j → j < i + ps.length → resOk j = true) →
      (attemptAll resOk i ps).2 = none ∧
      (attemptAll resOk i ps).1.map (fun q => q.2) = ps := by
  intro ps
  induction ps with
  | nil => intro i _; exact ⟨rfl, rfl⟩
  | cons p ps ih =>
      intro i h
      have hi : resOk i = true := h i (le_refl i) (by simp only [List.length_cons]; omega)
      have hrec := ih (i + 1)
        (fun j h1 h2 => h j (by omega) (by simp only [List.length_cons]; omega))
      simp only [attemptAll, hi, if_true]
      exact ⟨hrec.1, by simp only [List.map_cons, hrec.2]⟩

/-! ### Claim C2 -/

/-- C2 counterexample: in the demo UI the amount presented for charging in
the confirm modal (totalCost + 163) differs from the total cost displayed
for the plan (totalCost). -/
theorem charge_differs_from_displayed_total : chargeTotal ≠ totalCost := by decide

/-- C2 (amended): a BookingIntent that is confirmed unmodified and whose
reservations all succeed produces a committed BookingTransaction whose
total equals the intent's sum of prices; in the demo UI the amount
presented for charging equals the displayed total cost plus 163 dollars,
which is the sum of the two listed flight prices (the displayed total is
the sum of the per-day itinerary costs and excludes flights). -/
theorem committed_total_and_demo_charge :
    (∀ (resOk compOk : Nat → Bool) (intent : List Nat),
        (∀ j, 1 ≤ j → j ≤ intent.length → resOk j = true) →
        (execute resOk compOk intent).status = .committed ∧
        (execute resOk compOk intent).totalCharged = intent.sum) ∧
    totalCost = some 930 ∧ chargeTotal = some (930 + 163) ∧ flightPriceSum = some 163 := by
  refine ⟨?_, by decide, by decide, by decide⟩
  intro resOk compOk intent hall
  have h := attemptAll_allOk resOk intent 1 (fun j h1 h2 => hall j h1 (by omega))
  rcases hA : attemptAll resOk 1 intent with ⟨done, of⟩
  rw [hA] at h
  have h1 : of = none := h.1
  subst h1
  have h2 : done.map (fun q => q.2) = intent := h.2
  unfold execute
  rw [hA]
  exact ⟨rfl, by simp only [h2]⟩

theorem committed_total_and_demo_charge_witness :
    (execute (fun _ => true) (fun _ => true) [3, 4]).status = .committed :=
  (committed_total_and_demo_charge.1 (fun _ => true) (fun _ => true) [3, 4]
    (fun _ _ _ => rfl)).1

/-! ### Claim C9 -/

/-- C9: the total cost on the result screen is the sum of the parsed
per-day itinerary costs, exactly 930 dollars; the amount presented for
charging is that total plus 163, i.e. 1093; neither equals the 2740-dollar
estimate announced in the detail text of the budget planning step. -/
theorem demo_totals :
    totalCost = some (320 + 85 + 120 + 95 + 110 + 140 + 60) ∧
    totalCost = some 930 ∧
    chargeTotal = some 1093 ∧
    totalCost ≠ some 2740 ∧
    chargeTotal ≠ some 2740 ∧
    (AGENT_STEPS.getD 5 ⟨"", "", "", ""⟩).id = "budget" ∧
    (AGENT_STEPS.getD 5 ⟨"", "", "", ""⟩).detail = "Total estimate: $2,740 · Savings: $260" := by
  decide

/-! ### Claim C7 -/

/-- C7 counterexample: a bookings row inserted without an explicit status is
accepted by the schema yet carries the default status value, which lies
outside the status set claimed by the spec. -/
theorem default_status_outside_spec_set :
    bookingRowAllowed
      (insertBookingDefault "11111111-1111-1111-1111-111111111111" "BK-001" 100 0) = true ∧
    (insertBookingDefault "11111111-1111-1111-1111-111111111111" "BK-001" 100 0).status
      ∉ specStatusSet := by
  decide

/-- C7 (amended): the bookings schema constrains status only to be a string
of at most 20 characters and defaults it to the value confirmed; in
particular a record inserted without an explicit status carries the status
confirmed, which is outside the set pending, committed, rolled_back,
partially_failed, and the schema accepts such a record. -/
theorem booking_status_unconstrained :
    ∀ (sid cid : String) (amt : Int) (t : Nat),
      (insertBookingDefault sid cid amt t).status = "confirmed" ∧
      (insertBookingDefault sid cid amt t).status ∉ specStatusSet ∧
      (cid.length ≤ 20 → bookingRowAllowed (insertBookingDefault sid cid amt t) = true) := by
  intro sid cid amt t
  refine ⟨rfl, ?_, ?_⟩
  · show ("confirmed" : String) ∉ specStatusSet
    decide
  · intro h
    show (decide (cid.length ≤ 20) && decide (("confirmed" : String).length ≤ 20)) = true
    rw [Bool.and_eq_true]
    exact ⟨by simpa using h, by decide⟩

theorem booking_status_unconstrained_witness :
    (insertBookingDefault "s1" "c1" 0 0).status = "confirmed" :=
  (booking_status_unconstrained "s1" "c1" 0 0).1

/-! ### Claim C5 -/

lemma attemptAll_fail (resOk : Nat → Bool) (k : Nat) (hk : resOk k = false) :
    ∀ (ps : List Nat) (i : Nat), i ≤ k → k < i + ps.length →
      (∀ j, i ≤ j → j < k → resOk j = true) →
      (attemptAll resOk i ps).1.map (fun q => q.1) = List.range' i (k - i) ∧
      (attemptAll resOk i ps).2 = some k := by
  intro ps
  induction ps with
  | nil =>
      intro i h1 h2 _
      simp only [List.length_nil] at h2
      omega
  | cons p ps ih =>
      intro i h1 h2 h3
      by_cases hik : i = k
      · subst hik
        simp only [attemptAll, hk, Bool.false_eq_true, if_false]
        constructor
        · simp [Nat.sub_self]
        · trivial
      · have hik2 : i < k := lt_of_le_of_ne h1 hik
        have hi : resOk i = true := h3 i (le_refl i) hik2
        have hrec := ih (i + 1) (by omega) (by simp only [List.length_cons] at h2 ⊢; omega)
          (fun j hj1 hj2 => h3 j (by omega) hj2)
        simp only [attemptAll, hi, if_true]
        constructor
        · simp only [List.map_cons, hrec.1]
          rw [show k - i = (k - (i + 1)) + 1 by omega, List.range'_succ]
        · exact hrec.2

/-- C5: if reservation k fails (k greater than 1) while reservations 1
through k-1 succeeded, the compensation calls recorded are exactly those for
reservations k-1 down to 1, in strictly descending order; the transaction
records k as the failing step; and if every compensation succeeds the
transaction's final status is rolled_back and the session fails with
BookingFailed at step k. -/
theorem compensation_reverse_order :
    ∀ (resOk compOk : Nat → Bool) (intent : List Nat) (k : Nat),
      1 < k → k ≤ intent.length →
      (∀ j, 1 ≤ j → j < k → resOk j = true) → resOk k = false →
      (execute resOk compOk intent).compCalls.map (fun c => c.1)
          = (List.range' 1 (k - 1)).reverse ∧
      (execute resOk compOk intent).failedStep = some k ∧
      ((∀ j, 1 ≤ j → j < k → compOk j = true) →
        (execute resOk compOk intent).status = .rolled_back ∧
        sessionAfterBooking (execute resOk compOk intent)
          = (.failed, some (.BookingFailed k))) := by
  intro resOk compOk intent k hk1 hk2 hres hfail
  have h := attemptAll_fail resOk k hfail intent 1 (by omega) (by omega)
    (fun j hj1 hj2 => hres j hj1 hj2)
  rcases hA : attemptAll resOk 1 intent with ⟨done, of⟩
  rw [hA] at h
  have h1 : done.map (fun q => q.1) = List.range' 1 (k - 1) := h.1
  have h2 : of = some k := h.2
  subst h2
  have hmap : ((done.map (fun q => q.1)).reverse.map (fun j => (j, compOk j))).map
      (fun c : Nat × Bool => c.1) = (List.range' 1 (k - 1)).reverse := by
    rw [List.map_map]
    rw [show ((fun c : Nat × Bool => c.1) ∘ fun j => (j, compOk j)) = id from rfl]
    rw [List.map_id, h1]
  refine ⟨?_, ?_, ?_⟩
  · show (execute resOk compOk intent).compCalls.map (fun c => c.1) = _
    unfold execute
    rw [hA]
    exact hmap
  · unfold execute
    rw [hA]
  · intro hcomp
    have hall : ((done.map (fun q => q.1)).reverse.map (fun j => (j, compOk j))).all
        (fun c => c.2) = true := by
      rw [h1]
      rw [List.all_eq_true]
      intro c hc
      rw [List.mem_map] at hc
      obtain ⟨j, hj, hcj⟩ := hc
      rw [List.mem_reverse, List.mem_range'_1] at hj
      rw [← hcj]
      exact hcomp j hj.1 (by omega)
    have hst : (execute resOk compOk intent).status = .rolled_back := by
      unfold execute
      rw [hA]
      simp only [hall, if_true]
    refine ⟨hst, ?_⟩
    have hfs : (execute resOk compOk intent).failedStep = some k := by
      unfold execute
      rw [hA]
    unfold sessionAfterBooking
    rw [hst, hfs]
    rfl

/-- Reservation outcomes for the C5 witness: reservations 1 and 2 succeed,
reservation 3 fails. -/
def resOkW : Nat → Bool := fun j => decide (j < 3)

/-- Compensation outcomes for the C5 witness: every compensation succeeds. -/
def compOkW : Nat → Bool := fun _ => true

theorem compensation_reverse_order_witness :
    (execute resOkW compOkW [10, 20, 30, 40]).compCalls.map (fun c => c.1)
      = (List.range' 1 (3 - 1)).reverse :=
  (compensation_reverse_order resOkW compOkW [10, 20, 30, 40] 3 (by decide) (by decide)
    (fun j h1 h2 => by simp only [resOkW, decide_eq_true_eq]; omega) (by decide)).1

/-! ### Claim C6 -/

/-- The reachability invariant of the demo state machine: the completed
steps are always the first stepIndex step ids in their declared order, the
step index never passes the end of the step list, the result screen is only
reached with every step completed, and a booked state is on the result
screen. -/
def stepInv (s : AppState) : Prop :=
  s.completedSteps = stepIds.take s.stepIndex ∧
  s.stepIndex ≤ AGENT_STEPS.length ∧
  (s.screen = .result → s.stepIndex = AGENT_STEPS.length) ∧
  (s.booked = true → s.screen = .result)

lemma stepIds_take_succ (i : Nat) (hi : i < AGENT_STEPS.length) :
    stepIds.take (i + 1) = stepIds.take i ++ [stepIds.getD i ""] := by
  have h7 : AGENT_STEPS.length = 7 := rfl
  rw [h7] at hi
  interval_cases i <;> rfl

lemma stepInv_init : stepInv initState := by
  refine ⟨rfl, by decide, ?_, ?_⟩ <;> intro h <;> simp [initState] at h

set_option maxHeartbeats 1000000 in
lemma stepInv_apply (a : Action) (s : AppState) (h : stepInv s) :
    stepInv (applyAction a s) := by
  obtain ⟨h1, h2, h3, h4⟩ := h
  obtain ⟨scr, si, cs, p, ad, bm, bk, q⟩ := s
  simp only at h1 h2 h3 h4
  cases a
  case tick =>
    unfold applyAction planningTick
    unfold stepInv
    split_ifs <;> simp_all [stepIds_take_succ] <;> omega
  all_goals
    unfold applyAction
    unfold stepInv
    split_ifs <;> simp_all [stepIds_take_succ] <;>
      (split_ifs <;> simp_all)

lemma stepInv_run : ∀ (l : List Action) (s : AppState), stepInv s → stepInv (run s l) := by
  intro l
  induction l with
  | nil => intro s h; exact h
  | cons a l ih =>
      intro s h
      simp only [run, List.foldl_cons]
      exact ih _ (stepInv_apply a s h)

/-- C6: in every reachable state of the demo state machine, the completed
steps are exactly the first stepIndex ids of the declared step order —
calendar/availability, then flight and hotel search, then activity
curation, then budget reconciliation, then plan finalization/review — so a
later step never starts or completes before every earlier one has
completed; and the result screen (the only place the booking confirmation
can run) and the booked flag are only reachable with all planning steps
completed, so booking is never entered before review. -/
theorem steps_in_dependency_order :
    ∀ l : List Action,
      (run initState l).completedSteps = stepIds.take (run initState l).stepIndex ∧
      ((run initState l).screen = .result → (run initState l).completedSteps = stepIds) ∧
      ((run initState l).booked = true → (run initState l).completedSteps = stepIds) := by
  intro l
  obtain ⟨h1, h2, h3, h4⟩ := stepInv_run l initState stepInv_init
  refine ⟨h1, ?_, ?_⟩
  · intro hr
    rw [h1, h3 hr]
    rfl
  · intro hb
    rw [h1, h3 (h4 hb)]
    rfl

/-- Event sequence for the C6 witness: start planning and let the timer
fire eight times, finishing all seven steps and reaching the result screen. -/
def planActions : List Action :=
  [.goPreferences, .startPlanning, .tick, .tick, .tick, .tick, .tick, .tick, .tick, .tick]

theorem steps_in_dependency_order_witness :
    (run initState planActions).completedSteps = stepIds :=
  (steps_in_dependency_order planActions).2.1 (by decide)

/-! ### Claim C8 -/

/-- C8: the step log and the audit log are append-only.  A step transition
of the demo (a planning tick with steps remaining) appends exactly the
current step's id at the end of completedSteps; any event that keeps the
machine on the planning screen only ever extends completedSteps at the end;
and after any sequence of audit appends the previously persisted events are
an unchanged initial segment with the new events appended in order after
them. -/
theorem append_only_logs :
    (∀ s : AppState, s.screen = .planning → s.stepIndex < AGENT_STEPS.length →
        (planningTick s).completedSteps
          = s.completedSteps ++ [stepIds.getD s.stepIndex ""]) ∧
    (∀ (s : AppState) (a : Action), s.screen = .planning →
        (applyAction a s).screen = .planning →
        ∃ t, (applyAction a s).completedSteps = s.completedSteps ++ t) ∧
    (∀ (log : AuditLog) (es : List AuditEvent),
        (es.foldl appendAudit log).events = log.events ++ es) := by
  refine ⟨?_, ?_, ?_⟩
  · intro s hs hi
    unfold planningTick
    rw [if_pos hs, if_pos hi]
  · intro s a hs ha
    cases a
    case tick =>
      by_cases hi : s.stepIndex < AGENT_STEPS.length
      · refine ⟨[stepIds.getD s.stepIndex ""], ?_⟩
        unfold applyAction planningTick
        rw [if_pos hs, if_pos hi]
      · unfold applyAction planningTick at ha
        rw [if_pos hs, if_neg hi] at ha
        simp at ha
    all_goals exact ⟨[], by simp [applyAction, hs]⟩
  · intro log es
    induction es generalizing log with
    | nil => simp [List.foldl_nil]
    | cons e es ih =>
        rw [List.foldl_cons, ih, appendAudit]
        simp [List.append_assoc]

/-- A mid-planning state for the C8 witness: two steps completed. -/
def planningState : AppState :=
  ⟨.planning, 2, ["calendar", "prefs"], initPrefs, 0, false, false, initPayInfo⟩

theorem append_only_logs_witness :
    (planningTick planningState).completedSteps
      = planningState.completedSteps ++ [stepIds.getD planningState.stepIndex ""] :=
  append_only_logs.1 planningState rfl (by decide)

/-! ### Claim C10 -/

/-- The control portion of the component state: everything except the
user-entered prefs and payInfo values. -/
structure CtrlState where
  screen : Screen
  stepIndex : Nat
  completedSteps : List String
  activeDay : Nat
  bookingMode : Bool
  booked : Bool
  deriving DecidableEq

/-- Projection of the component state onto its control portion. -/
def ctrl (s : AppState) : CtrlState :=
  ⟨s.screen, s.stepIndex, s.completedSteps, s.activeDay, s.bookingMode, s.booked⟩

/-- Two events have the same shape when they are the same interaction,
allowing the user-entered payloads of the prefs, style and payment inputs
to differ. -/
def sameShape (a b : Action) : Bool :=
  match a, b with
  | .setPrefs _, .setPrefs _ => true
  | .setStyle _, .setStyle _ => true
  | .setPayInfo _, .setPayInfo _ => true
  | x, y => decide (x = y)

/-- Pointwise same-shape comparison of two event sequences. -/
def sameShapeL : List Action → List Action → Bool
  | [], [] => true
  | [], _ :: _ => false
  | _ :: _, [] => false
  | x :: xs, y :: ys => sameShape x y && sameShapeL xs ys

/-- The plan content rendered on the result screen together with the
control state that selects what is shown: all of the itinerary, flight and
hotel data, the step list, the displayed total and the charged amount are
module constants in App.jsx, so the rendered plan is determined by the
constants plus the screen and booked flags alone. -/
def planComponents (s : AppState) :
    Screen × Bool × List ItineraryDay × List Flight × List Hotel × List String
      × Option Nat × Option Nat :=
  (s.screen, s.booked, ITINERARY, FLIGHTS, HOTELS, stepIds, totalCost, chargeTotal)

set_option maxHeartbeats 1000000 in
lemma ctrl_applyAction_congr (a : Action) (s1 s2 : AppState) (h : ctrl s1 = ctrl s2) :
    ctrl (applyAction a s1) = ctrl (applyAction a s2) := by
  obtain ⟨c1, i1, l1, p1, d1, m1, b1, q1⟩ := s1
  obtain ⟨c2, i2, l2, p2, d2, m2, b2, q2⟩ := s2
  simp only [ctrl, CtrlState.mk.injEq] at h
  obtain ⟨e1, e2, e3, e4, e5, e6⟩ := h
  subst e1; subst e2; subst e3; subst e4; subst e5; subst e6
  cases a <;> simp only [applyAction, planningTick] <;> split_ifs <;> rfl

lemma ctrl_setPrefs (p : Prefs) (s : AppState) :
    ctrl (applyAction (.setPrefs p) s) = ctrl s := by
  unfold applyAction
  split_ifs <;> rfl

lemma ctrl_setStyle (v : String) (s : AppState) :
    ctrl (applyAction (.setStyle v) s) = ctrl s := by
  unfold applyAction
  split_ifs <;> rfl

lemma ctrl_setPayInfo (q : PayInfo) (s : AppState) :
    ctrl (applyAction (.setPayInfo q) s) = ctrl s := by
  unfold applyAction
  split_ifs <;> rfl

lemma sameShape_cases (a b : Action) (hs : sameShape a b = true) :
    a = b ∨ (∃ p p2, a = .setPrefs p ∧ b = .setPrefs p2) ∨
      (∃ v v2, a = .setStyle v ∧ b = .setStyle v2) ∨
      (∃ q q2, a = .setPayInfo q ∧ b = .setPayInfo q2) := by
  cases a <;> cases b <;> simp only [sameShape] at hs <;>
    first
      | exact Action.noConfusion (of_decide_eq_true hs)
      | exact Or.inr (Or.inl ⟨_, _, rfl, rfl⟩)
      | exact Or.inr (Or.inr (Or.inl ⟨_, _, rfl, rfl⟩))
      | exact Or.inr (Or.inr (Or.inr ⟨_, _, rfl, rfl⟩))
      | exact Or.inl (of_decide_eq_true hs)

lemma sameShape_step (a b : Action) (s1 s2 : AppState)
    (hs : sameShape a b = true) (h : ctrl s1 = ctrl s2) :
    ctrl (applyAction a s1) = ctrl (applyAction b s2) := by
  rcases sameShape_cases a b hs with hab | ⟨p, p2, ha, hb⟩ | ⟨v, v2, ha, hb⟩ | ⟨q, q2, ha, hb⟩
  · subst hab
    exact ctrl_applyAction_congr a s1 s2 h
  · subst ha; subst hb
    rw [ctrl_setPrefs, ctrl_setPrefs]
    exact h
  · subst ha; subst hb
    rw [ctrl_setStyle, ctrl_setStyle]
    exact h
  · subst ha; subst hb
    rw [ctrl_setPayInfo, ctrl_setPayInfo]
    exact h

lemma sameShapeL_run :
    ∀ (xs ys : List Action) (s1 s2 : AppState), sameShapeL xs ys = true →
      ctrl s1 = ctrl s2 → ctrl (run s1 xs) = ctrl (run s2 ys) := by
  intro xs
  induction xs with
  | nil =>
      intro ys s1 s2 hs h
      cases ys with
      | nil => exact h
      | cons y ys => simp [sameShapeL] at hs
  | cons x xs ih =>
      intro ys s1 s2 hs h
      cases ys with
      | nil => simp [sameShapeL] at hs
      | cons y ys =>
          simp only [sameShapeL, Bool.and_eq_true] at hs
          simp only [run, List.foldl_cons]
          exact ih ys _ _ hs.2 (sameShape_step x y s1 s2 hs.1 h)

/-- C10: the produced plan does not depend on the user-entered preference
and payment values.  Two runs of the app whose event sequences have the
same shape — identical interactions, with arbitrary differing payloads in
the preference, style and payment inputs — reach the same control state and
render identical plan content (itinerary, flights, hotels, step sequence,
displayed total and charged amount); only the echoed style and cardholder
text can differ. -/
theorem user_input_does_not_affect_plan :
    ∀ xs ys : List Action, sameShapeL xs ys = true →
      ctrl (run initState xs) = ctrl (run initState ys) ∧
      planComponents (run initState xs) = planComponents (run initState ys) := by
  intro xs ys hs
  have h := sameShapeL_run xs ys initState initState hs rfl
  have hscr : (run initState xs).screen = (run initState ys).screen :=
    congrArg CtrlState.screen h
  have hbk : (run initState xs).booked = (run initState ys).booked :=
    congrArg CtrlState.booked h
  refine ⟨h, ?_⟩
  unfold planComponents
  rw [hscr, hbk]

/-- Event sequence for the C10 witness with one set of user inputs. -/
def runInputsA : List Action :=
  [.goPreferences, .setPrefs ⟨"Tokyo, Japan", "Jul 1 – Jul 8, 2025", "$100", "1 adult", "Adventure"⟩,
    .setPayInfo ⟨"Alex Doe", "4000 0000 0000 0002", "01/30"⟩, .startPlanning, .tick, .tick]

/-- Event sequence for the C10 witness with different user inputs of the
same shape. -/
def runInputsB : List Action :=
  [.goPreferences, .setPrefs ⟨"Paris, France", "Aug 2 – Aug 9, 2025", "$9,999,999", "5 adults", "Wellness"⟩,
    .setPayInfo ⟨"Morgan Roe", "5555 5555 5555 4444", "11/31"⟩, .startPlanning, .tick, .tick]

theorem user_input_does_not_affect_plan_witness :
    ctrl (run initState runInputsA) = ctrl (run initState runInputsB) :=
  (user_input_does_not_affect_plan runInputsA runInputsB (by decide)).1

end VacaPlan
